import Mathlib

/-!
Shallow embedding of the Scam-Detector backend (`backend/server.py`) and proofs
about its analysis pipeline and authentication endpoints.

Conventions of the embedding:
* Python strings are Lean `String`s; bytes are `List Nat` (each < 256).
* A Python value that may be `None` is an `Option`.
* A handler that may raise `HTTPException` returns `Except` of an error record.
* External collaborators (the Gemini model, the Google token verifier, the
  Mongo user store) are passed in explicitly: the store as a list of records,
  the collaborators as values/functions describing the outcome of the one call
  the handler makes to them.
-/

namespace ScamDetector

/-- `ScamIndicator` model (server.py lines 56-59). -/
structure ScamIndicator where
  title : String
  explanation : String
  severity : String
deriving DecidableEq, Repr

/-- `ScamAnalysisResponse` model (server.py lines 62-66). -/
structure ScamAnalysisResponse where
  score : Int
  risk_level : String
  indicators : List ScamIndicator
  summary : String
deriving DecidableEq, Repr

/-- `ScamAnalysisRequest` model (server.py lines 52-53). -/
structure ScamAnalysisRequest where
  image_base64 : String
deriving DecidableEq, Repr

/-- An `HTTPException` whose `detail` is the structured dict
`{"error": ..., "details": ..., "logs": ...}` used by the `/analyze`
handler (server.py lines 256-263 and analogous raises). -/
structure AnalyzeError where
  status : Nat
  error : String
  details : String
  logs : List String
deriving DecidableEq, Repr

/-- Value of a standard-alphabet base64 character, `none` for every other
character (mirrors the alphabet accepted by CPython `binascii.a2b_b64`). -/
def b64CharVal (c : Char) : Option Nat :=
  if 65 ≤ c.toNat ∧ c.toNat ≤ 90 then some (c.toNat - 65)
  else if 97 ≤ c.toNat ∧ c.toNat ≤ 122 then some (c.toNat - 97 + 26)
  else if 48 ≤ c.toNat ∧ c.toNat ≤ 57 then some (c.toNat - 48 + 52)
  else if c = '+' then some 62
  else if c = '/' then some 63
  else none

/-- Error text raised by CPython `binascii.a2b_base64` when the number of data
characters is 1 more than a multiple of 4. -/
def invalidB64Msg (n : Nat) : String :=
  "Invalid base64-encoded string: number of data characters (" ++ toString n
    ++ ") cannot be 1 more than a multiple of 4"

/-- The decoding loop of CPython `binascii.a2b_base64` in non-strict mode
(the mode used by `base64.b64decode(s)`): characters outside the alphabet are
ignored.  A `=` seen at quad position < 2 is ignored and does not count (the
C condition `quad_pos >= 2 && quad_pos + ++pads >= 4` short-circuits, leaving
`pads` untouched); at quad position ≥ 2 it increments the pad count and the
decode ends successfully once position plus pads reaches 4.  Every valid data
character resets the pad count to 0 (C: `pads = 0;` before the quad switch).
At end of input, a leftover quad position of 1 is the
number-of-data-characters error, 2 or 3 is "Incorrect padding".
State: remaining input, position in the current quad (0-3), bits held from
the current quad, pads seen, total data characters seen, bytes produced so
far (reversed). -/
def a2bBase64 : List Char → Nat → Nat → Nat → Nat → List Nat →
    Except String (List Nat)
  | [], quadPos, _, _, count, acc =>
    if quadPos = 0 then .ok acc.reverse
    else if quadPos = 1 then .error (invalidB64Msg count)
    else .error "Incorrect padding"
  | c :: rest, quadPos, leftchar, pads, count, acc =>
    if c = '=' then
      if 2 ≤ quadPos then
        if 4 ≤ quadPos + (pads + 1) then .ok acc.reverse
        else a2bBase64 rest quadPos leftchar (pads + 1) count acc
      else a2bBase64 rest quadPos leftchar pads count acc
    else
      match b64CharVal c with
      | none => a2bBase64 rest quadPos leftchar pads count acc
      | some v =>
        let lc := leftchar * 64 + v
        match quadPos with
        | 0 => a2bBase64 rest 1 lc 0 (count + 1) acc
        | 1 => a2bBase64 rest 2 (lc % 16) 0 (count + 1) (lc / 16 :: acc)
        | 2 => a2bBase64 rest 3 (lc % 4) 0 (count + 1) (lc / 4 :: acc)
        | _ => a2bBase64 rest 0 0 0 (count + 1) (lc :: acc)

/-- Python `base64.b64decode(s)` for a `str` argument: the argument must be
pure ASCII (else `ValueError`), then `binascii.a2b_base64` decodes it in
non-strict mode.  Used by server.py line 381. -/
def b64decode (s : String) : Except String (List Nat) :=
  if s.data.all (fun c => c.toNat ≤ 127) then a2bBase64 s.data 0 0 0 0 []
  else .error "string argument should contain only ASCII characters"

/-- The object returned by `model.generate_content` together with the text
extracted from it at server.py line 409 (`response_text = response.text`).
The object has a `text` attribute; it has no `strip` method. -/
structure GeminiResponse where
  text : String
deriving DecidableEq, Repr

/-- The environment the `/analyze` handler runs in: the `GOOGLE_API_KEY`
value (server.py line 45), the outcome of `genai.configure` +
`GenerativeModel(...)` (lines 285-286), and the outcome of
`model.generate_content([prompt, image_part])` followed by `response.text`
(lines 406-409) as a function of the decoded image bytes.  An `Except.error`
models the corresponding Python call raising, with the exception text. -/
structure AnalyzeEnv where
  google_api_key : String
  genai_init : Except String Unit
  generate_content : List Nat → Except String GeminiResponse

/-- Python `str(e)` for the `AttributeError` raised at server.py line 425:
`response_text = response.strip()` is attribute lookup of `strip` on the
`GenerateContentResponse` object bound at line 406 (not on the string
`response_text` bound at line 409), and that object has no such attribute. -/
def geminiStripAttrMsg : String :=
  "\x27GenerateContentResponse\x27 object has no attribute \x27strip\x27"

/-- The `details` string of the outermost `except Exception` handler
(server.py lines 515-522). -/
def unexpectedErrorDetails (e : String) : String :=
  "An unexpected error occurred: " ++ e
    ++ ". Please try again or contact support if the issue persists."

/-- Python whitespace for `str.strip()` with no argument (ASCII part). -/
def pyIsSpace (c : Char) : Bool :=
  c = ' ' || c = '\t' || c = '\n' || c = '\x0d' || c = '\x0b' || c = '\x0c'

/-- Python `s.strip()`: remove leading and trailing whitespace. -/
def pyStrip (s : String) : String :=
  ⟨((s.data.dropWhile pyIsSpace).reverse.dropWhile pyIsSpace).reverse⟩

/-- Transcription of the fence-removal block, server.py lines 425-432, as it
reads with its first line applied to the reply text: strip whitespace, drop a
leading ```json or ``` marker and a trailing ``` marker, strip again.
NOTE: in the program as written this block is never executed on the reply
text, because line 425 calls `.strip()` on the response *object* and raises
`AttributeError` first; the definition records the block for reference. -/
def stripMarkdownFences (response_text : String) : String :=
  let t := (pyStrip response_text).data
  let t := if List.isPrefixOf "```json".data t then t.drop 7 else t
  let t := if List.isPrefixOf "```".data t then t.drop 3 else t
  let t := if List.isSuffixOf "```".data t then t.take (t.length - 3) else t
  pyStrip ⟨t⟩

/-- The `/analyze` handler `analyze_image` (server.py lines 245-522).
Stages in source order: empty-payload check (253), API-key check (269),
client initialization (284-287), base64 decode (379-382), prompt construction
(396-399), model invocation (402-409), then the parse block (422-432).

The parse block begins (line 425) with `response_text = response.strip()`,
where `response` is the `GenerateContentResponse` object; the object has no
`strip` attribute, so the interpreter raises `AttributeError` there.
`AttributeError` matches neither `except json.JSONDecodeError` (457) nor
`except ValueError` (470) nor `except HTTPException` (508), so it reaches the
outermost `except Exception` (511) and every request that gets this far is
answered with the 500 "Unexpected Error" response; the JSON-parsing,
field-validation and model-construction stages (439-506) are unreachable. -/
def analyze_image (env : AnalyzeEnv) (request : ScamAnalysisRequest) :
    Except AnalyzeError ScamAnalysisResponse :=
  if request.image_base64 = "" then
    .error ⟨400, "Invalid Image",
      "The image data is empty or invalid. Please try uploading a different image.",
      ["❌ Empty image data received"]⟩
  else if env.google_api_key = "" then
    .error ⟨500, "Configuration Error",
      "AI service is not properly configured. Please contact support.",
      ["✅ Image data validated", "❌ API key not configured"]⟩
  else
    match env.genai_init with
    | .error e =>
      .error ⟨500, "AI Service Error",
        "Could not connect to AI service: " ++ e,
        ["✅ Image data validated", "✅ API key found",
         "❌ Failed to initialize AI service: " ++ e]⟩
    | .ok _ =>
      match b64decode request.image_base64 with
      | .error e =>
        .error ⟨400, "Image Processing Error",
          "Failed to process the image: " ++ e
            ++ ". Make sure you\x27re uploading a valid image file.",
          ["✅ Image data validated", "✅ API key found",
           "✅ AI service initialized", "❌ Failed to process image: " ++ e]⟩
      | .ok image_data =>
        match env.generate_content image_data with
        | .error e =>
          .error ⟨500, "AI Analysis Failed",
            "The AI service encountered an error: " ++ e
              ++ ". This might be a temporary issue - please try again.",
            ["✅ Image data validated", "✅ API key found",
             "✅ AI service initialized", "✅ Image content prepared",
             "✅ Analysis request prepared", "❌ AI analysis failed: " ++ e]⟩
        | .ok _response =>
          -- server.py line 425: `response_text = response.strip()` raises
          -- `AttributeError`, which falls through to the outermost handler.
          .error ⟨500, "Unexpected Error",
            unexpectedErrorDetails geminiStripAttrMsg,
            ["✅ Image data validated", "✅ API key found",
             "✅ AI service initialized", "✅ Image content prepared",
             "✅ Analysis request prepared", "✅ AI analysis completed",
             "❌ Unexpected error: " ++ geminiStripAttrMsg]⟩

/-- The success note each stage of `analyze_image` appends to `error_logs`,
in stage order (server.py lines 265, 281, 287, 382, 399, 407). -/
def successNotes : List String :=
  ["✅ Image data validated", "✅ API key found", "✅ AI service initialized",
   "✅ Image content prepared", "✅ Analysis request prepared",
   "✅ AI analysis completed"]

/-- The `error` kinds the `/analyze` handler can put in an error response. -/
def analyzeErrorKinds : List String :=
  ["Invalid Image", "Configuration Error", "AI Service Error",
   "Image Processing Error", "AI Analysis Failed", "Unexpected Error"]

/-- A model reply wrapped in a ```json fenced block, used to evaluate the
response-unwrapping stage of the pipeline. -/
def fencedReply : String :=
  "```json\n\x7b\"score\": 10, \"risk_level\": \"safe\", \"indicators\": [], \"summary\": \"ok\"\x7d\n```"

/-- The same model reply without the fence. -/
def unfencedReply : String :=
  "\x7b\"score\": 10, \"risk_level\": \"safe\", \"indicators\": [], \"summary\": \"ok\"\x7d"

/-- A model reply that is a JSON object missing the `risk_level`,
`indicators` and `summary` fields required at server.py lines 443-453. -/
def missingFieldsReply : String := "\x7b\"score\": 42\x7d"

/-- The logs accumulated when a request reaches the parse block and dies on
the line-425 `AttributeError` (outermost handler, server.py lines 511-522). -/
def unexpectedErrorLogs : List String :=
  ["✅ Image data validated", "✅ API key found", "✅ AI service initialized",
   "✅ Image content prepared", "✅ Analysis request prepared",
   "✅ AI analysis completed", "❌ Unexpected error: " ++ geminiStripAttrMsg]

/-! ## Authentication: tokens, user store, endpoints -/

/-- `ACCESS_TOKEN_EXPIRE_MINUTES = 60 * 24 * 7  # 7 days` (server.py line 48). -/
def ACCESS_TOKEN_EXPIRE_MINUTES : Nat := 60 * 24 * 7

/-- The claims this system puts in its own session tokens: the subject id
(`sub`, `none` when absent or null) and the expiry (`exp`, seconds since
epoch, `none` when absent). -/
structure JwtPayload where
  sub : Option String
  exp : Option Nat
deriving DecidableEq, Repr

/-- A token produced by `jwt.encode(claims, key, algorithm)`, modeled
symbolically: it carries its claims and the key it was signed with, and
verification succeeds exactly when the verifying key equals the signing key
(HMAC with no collisions). -/
structure SignedToken where
  payload : JwtPayload
  sig : String
deriving DecidableEq, Repr

/-- `jwt.encode(to_encode, JWT_SECRET, algorithm=JWT_ALGORITHM)`
(server.py line 89), symbolically. -/
def jwtEncode (payload : JwtPayload) (secret : String) : SignedToken :=
  ⟨payload, secret⟩

/-- `jwt.decode(token, JWT_SECRET, algorithms=[JWT_ALGORITHM])` from
python-jose (server.py line 98): raises `JWTError` when the signature does
not verify, `ExpiredSignatureError` (a `JWTError`) when an `exp` claim is in
the past; otherwise returns the claims. -/
def jwtDecode (token : SignedToken) (secret : String) (now : Nat) :
    Except Unit JwtPayload :=
  if token.sig = secret then
    match token.payload.exp with
    | some e => if e < now then .error () else .ok token.payload
    | none => .ok token.payload
  else .error ()

/-- `create_access_token(data)` (server.py lines 85-90).  Both call sites
pass `data={"sub": user_id}`, so the dict argument is modeled by its `sub`
value; the function adds an `exp` claim `ACCESS_TOKEN_EXPIRE_MINUTES`
minutes from now and signs with the process secret. -/
def create_access_token (sub : Option String) (now : Nat) (secret : String) :
    SignedToken :=
  jwtEncode ⟨sub, some (now + ACCESS_TOKEN_EXPIRE_MINUTES * 60)⟩ secret

/-- A document of the `users` collection.  `id` models the `_id` key (the
provider subject id; `none` models a null `_id`, which the Apple route can
produce when the token has no `sub` claim); the Apple insert paths store no
`picture` key, modeled as `picture = none`. -/
structure StoredUser where
  id : Option String
  email : Option String
  name : Option String
  picture : Option String
  provider : String
  created_at : Nat
deriving DecidableEq, Repr

/-- `db.users.find_one({"_id": key})`: the first stored document whose `_id`
equals the key. -/
def findUser (db : List StoredUser) (key : Option String) : Option StoredUser :=
  db.find? (fun u => u.id == key)

/-- An `HTTPException` whose `detail` is a plain string, as raised by the
authentication code paths. -/
structure SimpleHTTPError where
  status : Nat
  detail : String
deriving DecidableEq, Repr

/-- The body returned by `GET /me` (server.py lines 231-235). -/
structure MeResponse where
  email : Option String
  name : Option String
  picture : Option String
deriving DecidableEq, Repr

/-- `get_current_user` (server.py lines 93-114): decode and verify the
bearer token (401 on `JWTError`), reject a missing subject id (401), then
resolve the subject id in the user store (401 `User not found` when absent).
The two `HTTPException`s raised inside the `try` are not `JWTError`s, so the
`except JWTError` clause does not intercept them. -/
def get_current_user (db : List StoredUser) (secret : String) (now : Nat)
    (token : SignedToken) : Except SimpleHTTPError StoredUser :=
  match jwtDecode token secret now with
  | .error _ => .error ⟨401, "Invalid authentication credentials"⟩
  | .ok payload =>
    match payload.sub with
    | none => .error ⟨401, "Invalid authentication credentials"⟩
    | some user_id =>
      match findUser db (some user_id) with
      | none => .error ⟨401, "User not found"⟩
      | some user => .ok user

/-- `GET /me` (server.py lines 226-235): project the authenticated user onto
`{email, name, picture}` via `.get`, i.e. `none` for a missing key. -/
def get_me (db : List StoredUser) (secret : String) (now : Nat)
    (token : SignedToken) : Except SimpleHTTPError MeResponse :=
  (get_current_user db secret now token).map fun u => ⟨u.email, u.name, u.picture⟩

/-- The claims `id_token.verify_oauth2_token` returns for a valid Google
token: `sub` is always present in a verified Google identity token; the
other claims are optional (`idinfo.get`). -/
structure GoogleIdInfo where
  sub : String
  email : Option String
  name : Option String
  picture : Option String
deriving DecidableEq, Repr

/-- How `id_token.verify_oauth2_token` can fail: `ValueError` for a token
the provider rejects (caught at server.py line 161), any other exception for
provider/transport failure (caught at line 164). -/
inductive GoogleVerifyError where
  | valueError
  | otherError
deriving DecidableEq, Repr

/-- The `AuthResponse` model (server.py lines 78-81), with the `user` dict
flattened into its three keys. -/
structure AuthResponse where
  access_token : SignedToken
  token_type : String
  user_email : Option String
  user_name : Option String
  user_picture : Option String
deriving DecidableEq, Repr

/-- `POST /auth/google` (server.py lines 122-166).  `verify` is the outcome
of the one call to `id_token.verify_oauth2_token` for the request's token.
On success: look the subject id up in the user store, insert a new record if
absent (lines 141-151), mint a session token, and answer with the *token*
claims (not the stored record).  The store is threaded explicitly: the
result carries the store after the call. -/
def google_auth (verify : Except GoogleVerifyError GoogleIdInfo)
    (db : List StoredUser) (now : Nat) (secret : String) :
    Except SimpleHTTPError (List StoredUser × AuthResponse) :=
  match verify with
  | .error .valueError => .error ⟨401, "Invalid Google token"⟩
  | .error .otherError => .error ⟨500, "Authentication failed"⟩
  | .ok idinfo =>
    let db1 :=
      match findUser db (some idinfo.sub) with
      | some _ => db
      | none =>
        db ++ [⟨some idinfo.sub, idinfo.email, idinfo.name, idinfo.picture,
          "google", now⟩]
    .ok (db1, ⟨create_access_token (some idinfo.sub) now secret, "bearer",
      idinfo.email, idinfo.name, idinfo.picture⟩)

/-- The claims `jwt.get_unverified_claims` reads out of an Apple identity
token; both are `.get`-accessed, hence optional. -/
structure AppleClaims where
  sub : Option String
  email : Option String
deriving DecidableEq, Repr

/-- A decodable Apple identity token: its claims together with its
signature.  `jwt.get_unverified_claims` (server.py line 178) returns the
claims without looking at the signature. -/
structure AppleIdToken where
  claims : AppleClaims
  sig : String
deriving DecidableEq, Repr

/-- The optional `user_data` object Apple sends on first sign-in.  The
handler reads `user_data.get("email")` and
`user_data.get("fullName", {}).get("givenName", "User")`; a missing
`fullName` key and a `fullName` without `givenName` both yield `"User"`, so
the nested access is modeled by one optional `givenName` value. -/
structure AppleUserData where
  email : Option String
  fullName_givenName : Option String
deriving DecidableEq, Repr

/-- `AppleAuthRequest` (server.py lines 73-75); `user_data = none` models an
absent (or empty, hence falsy) `user_data`. -/
structure AppleAuthRequest where
  id_token : AppleIdToken
  user_data : Option AppleUserData
deriving DecidableEq, Repr

/-- Python `a or b` on two optional strings: `a` unless `a` is `None` or the
empty string (both falsy), else `b`. -/
def pyOrStr (a b : Option String) : Option String :=
  if a.getD "" = "" then b else a

/-- `POST /auth/apple` (server.py lines 169-223): read the token claims
*without signature verification*, look the subject id up in the store,
insert a record on first sign-in — using `user_data` when it is present
(lines 187-197), else defaults (lines 198-207) — then mint a session token
and answer with the stored record's `email`/`name`/`picture`. -/
def apple_auth (db : List StoredUser) (req : AppleAuthRequest) (now : Nat)
    (secret : String) :
    Except SimpleHTTPError (List StoredUser × AuthResponse) :=
  let unverified := req.id_token.claims
  let user_id := unverified.sub
  let email := unverified.email
  match findUser db user_id, req.user_data with
  | none, some ud =>
    let user : StoredUser :=
      ⟨user_id, pyOrStr email ud.email, some (ud.fullName_givenName.getD "User"),
        none, "apple", now⟩
    .ok (db ++ [user], ⟨create_access_token user_id now secret, "bearer",
      user.email, user.name, user.picture⟩)
  | none, none =>
    let user : StoredUser := ⟨user_id, email, some "User", none, "apple", now⟩
    .ok (db ++ [user], ⟨create_access_token user_id now secret, "bearer",
      user.email, user.name, user.picture⟩)
  | some user, _ =>
    .ok (db, ⟨create_access_token user_id now secret, "bearer",
      user.email, user.name, user.picture⟩)

/-- A one-user store used to exercise `get_me` on concrete inputs. -/
def meDb : List StoredUser :=
  [⟨some "u1", some "u1@example.com", some "U One", some "pic", "google", 0⟩]

/-- Concrete verified Google claims used to exercise `google_auth`. -/
def googleIdInfo1 : GoogleIdInfo := ⟨"g-sub-1", some "g@example.com", some "G", none⟩

/-! ## Theorems -/

/-- Every run of `analyze_image` ends in an error: every control path either
fails at its own stage or reaches the parse block, where server.py line 425
raises `AttributeError`.  (Shared helper.) -/
theorem analyze_image_always_error (env : AnalyzeEnv)
    (request : ScamAnalysisRequest) :
    ∃ e, analyze_image env request = .error e := by
  unfold analyze_image
  repeat' split
  all_goals exact ⟨_, rfl⟩

/-- **C1** (code bug): with the API key configured, the client initialized
and the model replying with a well-formed JSON object wrapped in a
```json fence, `analyze_image` does not unwrap and parse the reply: it
answers 500 "Unexpected Error" (the `AttributeError` from
`response.strip()` at server.py line 425), and it answers the same for the
identical reply without the fence.  The third conjunct shows that the
fence-removal block the handler was meant to run (lines 425-432,
transcribed as `stripMarkdownFences`) would map the fenced reply to the
unfenced one. -/
theorem analyze_fence_stage_crashes :
    analyze_image ⟨"test-key", .ok (), fun _ => .ok ⟨fencedReply⟩⟩ ⟨"QUJD"⟩ =
      .error ⟨500, "Unexpected Error", unexpectedErrorDetails geminiStripAttrMsg,
        unexpectedErrorLogs⟩ ∧
    analyze_image ⟨"test-key", .ok (), fun _ => .ok ⟨unfencedReply⟩⟩ ⟨"QUJD"⟩ =
      .error ⟨500, "Unexpected Error", unexpectedErrorDetails geminiStripAttrMsg,
        unexpectedErrorLogs⟩ ∧
    stripMarkdownFences fencedReply = unfencedReply :=
  ⟨rfl, rfl, rfl⟩

/-- **C2**: a request whose `image_base64` is the empty string is rejected
by the first pipeline stage with status 400, error kind "Invalid Image" and
the single-entry log — for *every* environment, i.e. before the API-key
check, the decode and the model call can influence the outcome. -/
theorem analyze_empty_image_rejected_first (env : AnalyzeEnv) :
    analyze_image env ⟨""⟩ =
      .error ⟨400, "Invalid Image",
        "The image data is empty or invalid. Please try uploading a different image.",
        ["❌ Empty image data received"]⟩ := rfl

/-- **C3**: a non-empty payload the base64 decoder rejects makes the decode
stage fail with status 400 and kind "Image Processing Error" (in a
configured environment), and such a request is never answered with a
success result in any environment. -/
theorem analyze_malformed_base64 (env : AnalyzeEnv)
    (request : ScamAnalysisRequest) (msg : String)
    (hne : request.image_base64 ≠ "")
    (hdec : b64decode request.image_base64 = .error msg) :
    (env.google_api_key ≠ "" → env.genai_init = .ok () →
      analyze_image env request =
        .error ⟨400, "Image Processing Error",
          "Failed to process the image: " ++ msg
            ++ ". Make sure you\x27re uploading a valid image file.",
          ["✅ Image data validated", "✅ API key found",
           "✅ AI service initialized", "❌ Failed to process image: " ++ msg]⟩) ∧
    ∀ r : ScamAnalysisResponse, analyze_image env request ≠ .ok r := by
  constructor
  · intro hkey hinit
    simp only [analyze_image, if_neg hne, if_neg hkey, hinit, hdec]
  · intro r hr
    obtain ⟨e, he⟩ := analyze_image_always_error env request
    rw [he] at hr
    exact Except.noConfusion hr

/-- Witness for C3 at the spec's example input. -/
theorem analyze_malformed_base64_witness :
    analyze_image ⟨"test-key", .ok (), fun _ => .ok ⟨""⟩⟩
        ⟨"invalid_base64_data!!!"⟩ =
      .error ⟨400, "Image Processing Error",
        "Failed to process the image: " ++ invalidB64Msg 17
          ++ ". Make sure you\x27re uploading a valid image file.",
        ["✅ Image data validated", "✅ API key found",
         "✅ AI service initialized",
         "❌ Failed to process image: " ++ invalidB64Msg 17]⟩ :=
  (analyze_malformed_base64 ⟨"test-key", .ok (), fun _ => .ok ⟨""⟩⟩
    ⟨"invalid_base64_data!!!"⟩ (invalidB64Msg 17) (by decide) rfl).1
    (by decide) rfl

/-- **C4**: on every run, failure is reported as a structured error whose
`error` kind is one of the handler's kinds and whose log is exactly the
success notes of the completed stages, in stage order, followed by one
failure note; no partial analysis result escapes (the handler in fact never
returns a success value at all, so the success side is vacuous and the
result type itself carries no log on the success branch). -/
theorem analyze_failure_surface (env : AnalyzeEnv)
    (request : ScamAnalysisRequest) :
    ∃ e, analyze_image env request = .error e ∧
      e.error ∈ analyzeErrorKinds ∧
      ∃ k t, e.logs = successNotes.take k ++ ["❌ " ++ t] := by
  unfold analyze_image
  split
  · exact ⟨_, rfl, by decide, 0, "Empty image data received", by decide⟩
  split
  · exact ⟨_, rfl, by decide, 1, "API key not configured", by decide⟩
  split
  · rename_i e he
    refine ⟨_, rfl, ?_, 2, "Failed to initialize AI service: " ++ e, ?_⟩
    · show "AI Service Error" ∈ analyzeErrorKinds
      decide
    · show _ = successNotes.take 2 ++ ["❌ " ++ ("Failed to initialize AI service: " ++ e)]
      rw [← String.append_assoc]
      rfl
  split
  · rename_i e he
    refine ⟨_, rfl, ?_, 3, "Failed to process image: " ++ e, ?_⟩
    · show "Image Processing Error" ∈ analyzeErrorKinds
      decide
    · show _ = successNotes.take 3 ++ ["❌ " ++ ("Failed to process image: " ++ e)]
      rw [← String.append_assoc]
      rfl
  split
  · rename_i e he
    refine ⟨_, rfl, ?_, 5, "AI analysis failed: " ++ e, ?_⟩
    · show "AI Analysis Failed" ∈ analyzeErrorKinds
      decide
    · show _ = successNotes.take 5 ++ ["❌ " ++ ("AI analysis failed: " ++ e)]
      rw [← String.append_assoc]
      rfl
  · refine ⟨_, rfl, ?_, 6, "Unexpected error: " ++ geminiStripAttrMsg, ?_⟩
    · show "Unexpected Error" ∈ analyzeErrorKinds
      decide
    · show _ = successNotes.take 6 ++ ["❌ " ++ ("Unexpected error: " ++ geminiStripAttrMsg)]
      rw [← String.append_assoc]
      rfl

/-- **C5** (code bug): a model reply that is a JSON object missing
`risk_level`, `indicators` and `summary` does not produce the
"Invalid Response Format" error naming the missing fields (server.py lines
443-480): the request dies earlier, on the line-425 `AttributeError`, with
the generic 500 "Unexpected Error". -/
theorem analyze_missing_fields_crashes :
    analyze_image ⟨"test-key", .ok (), fun _ => .ok ⟨missingFieldsReply⟩⟩
        ⟨"QUJD"⟩ =
      .error ⟨500, "Unexpected Error", unexpectedErrorDetails geminiStripAttrMsg,
        unexpectedErrorLogs⟩ := rfl

/-- **C6**: `/me` answers 401 when the bearer token's signature is wrong,
when the token is expired, when it decodes but carries no subject id, and
when the subject id resolves to no stored user ("User not found"); when a
record is found it answers with the record's email, name and picture. -/
theorem get_me_verification (db : List StoredUser) (secret : String)
    (now : Nat) (token : SignedToken) :
    (token.sig ≠ secret →
      get_me db secret now token =
        .error ⟨401, "Invalid authentication credentials"⟩) ∧
    (∀ e, token.payload.exp = some e → e < now →
      get_me db secret now token =
        .error ⟨401, "Invalid authentication credentials"⟩) ∧
    (jwtDecode token secret now = .ok token.payload →
      token.payload.sub = none →
      get_me db secret now token =
        .error ⟨401, "Invalid authentication credentials"⟩) ∧
    (∀ uid, jwtDecode token secret now = .ok token.payload →
      token.payload.sub = some uid → findUser db (some uid) = none →
      get_me db secret now token = .error ⟨401, "User not found"⟩) ∧
    (∀ uid u, jwtDecode token secret now = .ok token.payload →
      token.payload.sub = some uid → findUser db (some uid) = some u →
      get_me db secret now token = .ok ⟨u.email, u.name, u.picture⟩) := by
  refine ⟨?_, ?_, ?_, ?_, ?_⟩
  · intro hsig
    simp only [get_me, get_current_user, jwtDecode, if_neg hsig, Except.map]
  · intro e hexp hlt
    by_cases hsig : token.sig = secret
    · simp only [get_me, get_current_user, jwtDecode, hexp, if_pos hsig,
        if_pos hlt, Except.map]
    · simp only [get_me, get_current_user, jwtDecode, if_neg hsig, Except.map]
  · intro hdec hsub
    simp only [get_me, get_current_user, hdec, hsub, Except.map]
  · intro uid hdec hsub hfind
    simp only [get_me, get_current_user, hdec, hsub, hfind, Except.map]
  · intro uid u hdec hsub hfind
    simp only [get_me, get_current_user, hdec, hsub, hfind, Except.map]

/-- Witness for C6: the five cases at concrete tokens against `meDb`. -/
theorem get_me_verification_witness :
    get_me meDb "s" 100 ⟨⟨some "u1", some 200⟩, "wrong"⟩ =
      .error ⟨401, "Invalid authentication credentials"⟩ ∧
    get_me meDb "s" 100 ⟨⟨some "u1", some 50⟩, "s"⟩ =
      .error ⟨401, "Invalid authentication credentials"⟩ ∧
    get_me meDb "s" 100 ⟨⟨none, some 200⟩, "s"⟩ =
      .error ⟨401, "Invalid authentication credentials"⟩ ∧
    get_me meDb "s" 100 ⟨⟨some "ghost", some 200⟩, "s"⟩ =
      .error ⟨401, "User not found"⟩ ∧
    get_me meDb "s" 100 ⟨⟨some "u1", some 200⟩, "s"⟩ =
      .ok ⟨some "u1@example.com", some "U One", some "pic"⟩ :=
  ⟨(get_me_verification meDb "s" 100 ⟨⟨some "u1", some 200⟩, "wrong"⟩).1
      (by decide),
   (get_me_verification meDb "s" 100 ⟨⟨some "u1", some 50⟩, "s"⟩).2.1
      50 rfl (by decide),
   (get_me_verification meDb "s" 100 ⟨⟨none, some 200⟩, "s"⟩).2.2.1 rfl rfl,
   (get_me_verification meDb "s" 100 ⟨⟨some "ghost", some 200⟩, "s"⟩).2.2.2.1
      "ghost" rfl rfl rfl,
   (get_me_verification meDb "s" 100 ⟨⟨some "u1", some 200⟩, "s"⟩).2.2.2.2
      "u1" ⟨some "u1", some "u1@example.com", some "U One", some "pic",
        "google", 0⟩ rfl rfl rfl⟩

/-- **C7**: after a successful Google sign-in, a second sign-in with a
token for the same subject id finds the stored record (first conjunct) and
leaves the store exactly as it was — no duplicate insert, no field of any
stored record modified (second conjunct: the store component of the result
is `db1` itself). -/
theorem google_auth_idempotent (db : List StoredUser) (i1 i2 : GoogleIdInfo)
    (now1 now2 : Nat) (secret : String) (db1 : List StoredUser)
    (r1 : AuthResponse) (hsub : i2.sub = i1.sub)
    (h1 : google_auth (.ok i1) db now1 secret = .ok (db1, r1)) :
    (∃ u, findUser db1 (some i1.sub) = some u) ∧
    google_auth (.ok i2) db1 now2 secret =
      .ok (db1, ⟨create_access_token (some i2.sub) now2 secret, "bearer",
        i2.email, i2.name, i2.picture⟩) := by
  have hfound : ∃ u, findUser db1 (some i1.sub) = some u := by
    simp only [google_auth] at h1
    rcases hf : findUser db (some i1.sub) with _ | u
    · rw [hf] at h1
      simp only [Except.ok.injEq, Prod.mk.injEq] at h1
      obtain ⟨hdb, -⟩ := h1
      subst hdb
      refine ⟨⟨some i1.sub, i1.email, i1.name, i1.picture, "google", now1⟩, ?_⟩
      unfold findUser at hf ⊢
      rw [List.find?_append, hf]
      simp [List.find?]
    · rw [hf] at h1
      simp only [Except.ok.injEq, Prod.mk.injEq] at h1
      obtain ⟨hdb, -⟩ := h1
      subst hdb
      exact ⟨u, hf⟩
  obtain ⟨u, hu⟩ := hfound
  refine ⟨⟨u, hu⟩, ?_⟩
  simp only [google_auth, hsub, hu]

/-- Witness for C7: sign in twice against an initially empty store. -/
theorem google_auth_idempotent_witness :
    (∃ u, findUser
        [⟨some "g-sub-1", some "g@example.com", some "G", none, "google", 5⟩]
        (some googleIdInfo1.sub) = some u) ∧
    google_auth (.ok googleIdInfo1)
        [⟨some "g-sub-1", some "g@example.com", some "G", none, "google", 5⟩]
        7 "s" =
      .ok ([⟨some "g-sub-1", some "g@example.com", some "G", none, "google", 5⟩],
        ⟨create_access_token (some googleIdInfo1.sub) 7 "s", "bearer",
          googleIdInfo1.email, googleIdInfo1.name, googleIdInfo1.picture⟩) :=
  google_auth_idempotent [] googleIdInfo1 googleIdInfo1 5 7 "s"
    [⟨some "g-sub-1", some "g@example.com", some "G", none, "google", 5⟩]
    ⟨create_access_token (some googleIdInfo1.sub) 5 "s", "bearer",
      googleIdInfo1.email, googleIdInfo1.name, googleIdInfo1.picture⟩
    rfl rfl

/-- **C8**: the Apple sign-in outcome is a function of the token's decoded
claims only: two decodable tokens with identical claims and arbitrary
(e.g. one valid, one invalid) signatures produce identical results, because
`jwt.get_unverified_claims` never inspects the signature. -/
theorem apple_auth_ignores_signature (db : List StoredUser)
    (t1 t2 : AppleIdToken) (ud : Option AppleUserData) (now : Nat)
    (secret : String) (h : t1.claims = t2.claims) :
    apple_auth db ⟨t1, ud⟩ now secret = apple_auth db ⟨t2, ud⟩ now secret := by
  simp only [apple_auth, h]

/-- Witness for C8: same claims, a "valid" and a garbage signature. -/
theorem apple_auth_ignores_signature_witness :
    apple_auth [] ⟨⟨⟨some "a-sub-2", some "b@example.com"⟩, "valid-signature"⟩, none⟩
        3 "s" =
      apple_auth [] ⟨⟨⟨some "a-sub-2", some "b@example.com"⟩, "garbage"⟩, none⟩
        3 "s" :=
  apple_auth_ignores_signature [] ⟨⟨some "a-sub-2", some "b@example.com"⟩, "valid-signature"⟩
    ⟨⟨some "a-sub-2", some "b@example.com"⟩, "garbage"⟩ none 3 "s" rfl

/-- **C9**: the session issuer is a pure function (a `def` with no state)
that signs exactly the given subject id with an expiry exactly
`7 * 24 * 60 * 60` seconds — one week — after issuance. -/
theorem create_access_token_expiry (sub : Option String) (now : Nat)
    (secret : String) :
    create_access_token sub now secret =
      ⟨⟨sub, some (now + 7 * 24 * 60 * 60)⟩, secret⟩ := rfl

/-- **C10**: an Apple sign-in whose claims decode, whose subject id has no
stored record and whose request carries no `user_data` creates a record
with name "User", provider "apple", no picture and the email of the token
claims, and answers with that record's fields. -/
theorem apple_auth_first_signin_defaults (db : List StoredUser)
    (claims : AppleClaims) (sig : String) (now : Nat) (secret : String)
    (h : findUser db claims.sub = none) :
    apple_auth db ⟨⟨claims, sig⟩, none⟩ now secret =
      .ok (db ++ [⟨claims.sub, claims.email, some "User", none, "apple", now⟩],
        ⟨create_access_token claims.sub now secret, "bearer",
          claims.email, some "User", none⟩) := by
  simp only [apple_auth, h]

/-- Witness for C10 against an empty store. -/
theorem apple_auth_first_signin_defaults_witness :
    apple_auth [] ⟨⟨⟨some "a-sub-1", some "a@example.com"⟩, "sig-A"⟩, none⟩ 9 "s" =
      .ok ([⟨some "a-sub-1", some "a@example.com", some "User", none, "apple", 9⟩],
        ⟨create_access_token (some "a-sub-1") 9 "s", "bearer",
          some "a@example.com", some "User", none⟩) :=
  apple_auth_first_signin_defaults [] ⟨some "a-sub-1", some "a@example.com"⟩
    "sig-A" 9 "s" rfl

end ScamDetector
